import Mathlib

/-!
# Verification of the MyHubLocal core (registry, discovery, protocol dispatch, telemetry)

Shallow embedding of the Python backend of `MyHubLocal`:

* `backend/app/core/registry.py` — device registry with atomic persistence,
* `backend/app/core/discover.py` — Wi-Fi discovery merge and full discovery fan-out,
* `backend/app/core/telemetry.py` — bounded telemetry history,
* `backend/device_protocols.py` — Shelly (Wi-Fi relay) and Z-Wave control adapters,
* `backend/app/api/devices.py` — the `/add` route handler (end-to-end add).

Device records and JSON payloads are Python dictionaries in the source; they are
modelled as association lists of string keys and JSON scalar/object values with
Python's first-match lookup, insertion-order preserving update, and Python `==`
semantics (including the `bool`/`int` numeric cross-equality).
-/

set_option autoImplicit false

namespace MyHubLocal

/-- JSON values as manipulated by the Python code: `None`, strings, integers,
booleans, and objects (dictionaries).  Arrays never flow through the modelled
code paths at value positions and are omitted. -/
inductive JVal where
  | null
  | str (s : String)
  | num (n : Int)
  | bool (b : Bool)
  | obj (d : List (String × JVal))

/-- A Python dictionary with string keys, as an insertion-ordered association
list.  Python dictionaries have no duplicate keys; definitions below follow
Python's semantics on that fragment. -/
abbrev JDict := List (String × JVal)

/-- `d.get(k)` / `d[k]` presence: first entry with the key (Python dicts have at
most one). -/
def dictGet (d : JDict) (k : String) : Option JVal :=
  match d with
  | [] => none
  | (k', v) :: rest => if k' = k then some v else dictGet rest k

/-- `k in d`. -/
def dictContains (d : JDict) (k : String) : Bool :=
  (dictGet d k).isSome

/-- `d[k] = v`: replace the value in place if the key exists, otherwise append
the new entry (Python preserves insertion order). -/
def dictSet (d : JDict) (k : String) (v : JVal) : JDict :=
  match d with
  | [] => [(k, v)]
  | (k', v') :: rest => if k' = k then (k', v) :: rest else (k', v') :: dictSet rest k v

/-- `d.update(new)`: assign every entry of `new` into `d`, in order. -/
def dictUpdate (d new : JDict) : JDict :=
  new.foldl (fun acc kv => dictSet acc kv.1 kv.2) d

/-- `d.get(k)` with Python's `None` default. -/
def pyGet (d : JDict) (k : String) : JVal :=
  (dictGet d k).getD .null

/-- `d.get(k, dflt)`. -/
def jGetD (d : JDict) (k : String) (dflt : JVal) : JVal :=
  (dictGet d k).getD dflt

/-- Python `==` on the JSON values the code compares.  `True == 1` and
`False == 0` hold in Python; values of unrelated types compare unequal.
Object comparison recurses pointwise (the embedded code never actually
compares two objects: every comparison in the sources has a scalar on at
least one side). -/
def pyEq : JVal → JVal → Bool
  | .null, .null => true
  | .str a, .str b => a == b
  | .num a, .num b => a == b
  | .bool a, .bool b => a == b
  | .bool a, .num b => (if a then (1 : Int) else 0) == b
  | .num a, .bool b => a == (if b then (1 : Int) else 0)
  | .obj a, .obj b => goList a b
  | _, _ => false
where
  goList : List (String × JVal) → List (String × JVal) → Bool
  | [], [] => true
  | (k1, v1) :: r1, (k2, v2) :: r2 => k1 == k2 && pyEq v1 v2 && goList r1 r2
  | _, _ => false

/-- Python truthiness of a JSON value (`if ip and ...`). -/
def pyTruthy : JVal → Bool
  | .null => false
  | .str s => !s.isEmpty
  | .num n => n != 0
  | .bool b => b
  | .obj d => !d.isEmpty

/-- Python slice `l[-n:]`: the last `n` elements (all of `l` when it is
shorter). -/
def pyLastN {α : Type} (n : Nat) (l : List α) : List α :=
  l.drop (l.length - n)

example : dictGet [("a", .num 1), ("b", .null)] "b" = some .null := rfl
example : dictSet [("a", .num 1)] "a" (.num 2) = [("a", .num 2)] := rfl
example : dictUpdate [("a", .num 1), ("c", .bool true)] [("a", .num 7), ("d", .null)]
    = [("a", .num 7), ("c", .bool true), ("d", .null)] := rfl
example : pyEq (.bool false) (.num 0) = true := rfl
example : pyEq (.str "x") (.num 0) = false := rfl
example : pyLastN 2 [1, 2, 3, 4] = [3, 4] := rfl

/-! ## Registry persistence (`backend/app/core/registry.py`) -/

/-- Parse of what `devices_registry.json` holds, as observed by
`_load_registry_sync`: empty after `strip()`, text that fails `json.loads`
(payload kept so the backed-up file can be talked about), valid JSON whose
top level is not a list, or a JSON list of device objects. -/
inductive RegFileContent where
  | emptyContent
  | malformed (raw : String)
  | jsonNonList (v : JVal)
  | jsonList (devs : List JDict)

/-- The slice of the data directory the registry code touches: the live file
`devices_registry.json`, the backup path `devices_registry.json.backup`, and
the temporary path `devices_registry.tmp`.  `none` means the path does not
exist. -/
structure FState where
  reg : Option RegFileContent
  backup : Option RegFileContent
  tmp : Option RegFileContent

/-- The primitive file-system steps `_save_registry_sync` performs, in order:
serialize the whole document to the temporary file, then atomically rename it
over the live file. -/
inductive FsOp where
  | writeTmp (devs : List JDict)
  | renameTmpToReg

/-- Effect of one primitive step on the data directory. -/
def applyOp (fs : FState) : FsOp → FState
  | .writeTmp devs => { fs with tmp := some (.jsonList devs) }
  | .renameTmpToReg => { fs with reg := fs.tmp, tmp := none }

/-- The step sequence of `_save_registry_sync devices`. -/
def saveOps (devs : List JDict) : List FsOp :=
  [.writeTmp devs, .renameTmpToReg]

/-- Run a sequence of file-system steps. -/
def runOps (fs : FState) (ops : List FsOp) : FState :=
  ops.foldl applyOp fs

/-- `_save_registry_sync`: write the temp file, atomically rename it over the
live file, return `True`.  (The exception path cleans up the temp file and
returns `False`; the pure model has no I/O failures.) -/
def save_registry_sync (fs : FState) (devs : List JDict) : Bool × FState :=
  (true, runOps fs (saveOps devs))

/-- The two `sample_devices` seeded on first run, with `datetime.now()`
abstracted as the `now` argument. -/
def sampleDevices (now : String) : List JDict :=
  [ [("id", .str "living_room_light"), ("name", .str "Living Room Light"),
     ("type", .str "wifi"), ("ip", .str "192.168.1.100"),
     ("status", .str "unknown"), ("added_at", .str now), ("last_seen", .null)],
    [("id", .str "kitchen_switch"), ("name", .str "Kitchen Switch"),
     ("type", .str "zwave"), ("node_id", .num 2),
     ("status", .str "unknown"), ("added_at", .str now), ("last_seen", .null)] ]

/-- `_load_registry_sync`: seed-and-save when the file is missing; `[]` for an
empty file; `[]` for JSON that is not a list; backup-rename (live file moved to
`devices_registry.json.backup`, overwriting it) and `[]` when parsing fails;
otherwise the parsed list. -/
def load_registry_sync (fs : FState) (now : String) : List JDict × FState :=
  match fs.reg with
  | none =>
      let samples := sampleDevices now
      (samples, (save_registry_sync fs samples).2)
  | some .emptyContent => ([], fs)
  | some (.malformed raw) => ([], { fs with reg := none, backup := some (.malformed raw) })
  | some (.jsonNonList _) => ([], fs)
  | some (.jsonList devs) => (devs, fs)

/-! ## Registry CRUD (`backend/app/core/registry.py`, list level)

`add_device` first `load`s the registry, mutates the Python list, then
`save`s it.  The file round-trip always presents the in-memory list, so the
CRUD layer is modelled directly on the device list. -/

/-- Python `d.get('id') == target` — `None == None` is `True`, which the
`.get` default makes observable. -/
def idMatches (d : JDict) (target : JVal) : Bool :=
  pyEq (pyGet d "id") target

/-- The duplicate-id branch of `add_device`: mutate the first record whose id
matches (`next(...)`) with `existing_device.update(device_data)` and stamp
`updated_at`. -/
def updateFirstById (devices : List JDict) (target : JVal) (dd : JDict) (now : String) :
    List JDict :=
  match devices with
  | [] => []
  | d :: rest =>
      if idMatches d target then
        dictSet (dictUpdate d dd) "updated_at" (.str now) :: rest
      else
        d :: updateFirstById rest target dd now

/-- The `if 'status' not in device_data` default of `add_device`: set
`status` to `"unknown"` only when the record carries none. -/
def statusDefault (d : JDict) : JDict :=
  if dictContains d "status" then d else dictSet d "status" (.str "unknown")

/-- `add_device` at the list level (`datetime.now().isoformat()` abstracted as
`now`): validate that `id`, `name` and `type` are present (returning `False`
without saving otherwise); if a record with the same id exists, update it in
place; otherwise stamp `added_at`, set `last_seen` to `None`, default `status`
to `"unknown"` when absent, and append.  Returns the saved list together with
the `True`/`False` result. -/
def add_device (devices : List JDict) (device_data : JDict) (now : String) :
    Bool × List JDict :=
  if dictContains device_data "id" && dictContains device_data "name" &&
      dictContains device_data "type" then
    if devices.any (fun d => idMatches d (pyGet device_data "id")) then
      (true, updateFirstById devices (pyGet device_data "id") device_data now)
    else
      (true, devices ++
        [statusDefault (dictSet (dictSet device_data "added_at" (.str now)) "last_seen" .null)])
  else
    (false, devices)

example :
    add_device [] [("id", .str "a"), ("name", .str "A"), ("type", .str "wifi")] "T1"
      = (true, [[("id", .str "a"), ("name", .str "A"), ("type", .str "wifi"),
                 ("added_at", .str "T1"), ("last_seen", .null),
                 ("status", .str "unknown")]]) := rfl

example :
    add_device [[("id", .str "a"), ("name", .str "A"), ("type", .str "wifi")]]
        [("id", .str "a"), ("name", .str "B"), ("type", .str "wifi")] "T2"
      = (true, [[("id", .str "a"), ("name", .str "B"), ("type", .str "wifi"),
                 ("updated_at", .str "T2")]]) := rfl

/-! ## The `/devices/add` route handler (`backend/app/api/devices.py`) -/

/-- A `DeviceAdd` request body after pydantic validation (`type` is the
literal `"wifi"` or `"zwave"`). -/
structure DeviceAddInput where
  id : String
  name : String
  type : String
  ip : Option String
  node_id : Option Int

/-- The `HTTPException`s the handler can raise before reaching the registry,
plus the 500 raised when the registry save reports failure. -/
inductive ApiError where
  | badRequest (detail : String)
  | conflict (detail : String)
  | serverError (detail : String)

/-- Python `str.lower()`, written over the underlying character list (the
library's `String.toLower` does not reduce under kernel evaluation). -/
def pyLower (s : String) : String :=
  ⟨s.data.map Char.toLower⟩

/-- Python `str.strip()`: drop whitespace from both ends. -/
def pyStrip (s : String) : String :=
  ⟨((s.data.dropWhile Char.isWhitespace).reverse.dropWhile Char.isWhitespace).reverse⟩

/-- Python truthiness of an optional string (`not device_data.ip`). -/
def optStrTruthy : Option String → Bool
  | none => false
  | some s => !s.isEmpty

/-- Python truthiness of an optional integer (`not device_data.node_id`). -/
def optIntTruthy : Option Int → Bool
  | none => false
  | some n => n != 0

/-- `Device(**device_fields).dict()`: the pydantic record with every declared
field present, in field-declaration order, optional fields filled with
`None`. -/
def pydanticDeviceDict (id name status type : String) (ip : Option String)
    (node_id : Option Int) (added_at last_seen : String) : JDict :=
  [("id", .str id), ("name", .str name), ("status", .str status),
   ("type", .str type),
   ("ip", match ip with | some s => .str s | none => .null),
   ("node_id", match node_id with | some n => .num n | none => .null),
   ("added_at", .str added_at), ("last_seen", .str last_seen)]

/-- The `/add` route handler body (`backend/app/api/devices.py`,
`add_device`), with `datetime.now().isoformat()` abstracted as `now`:
sanitize id (strip + lowercase) and name (strip); require a transport address
for the type; 409 on an existing id or, for Wi-Fi, an already-used ip; build
the new record with `status: "off"` (the handler's "New devices start as
off"), `ip`/`node_id` per type, and both timestamps; store it through the
registry-level `add_device`.  Returns the updated registry and the stored
record. -/
def api_add_device (devices : List JDict) (input : DeviceAddInput) (now : String) :
    Except ApiError (List JDict × JDict) :=
  let device_id := pyLower (pyStrip input.id)
  let device_name := pyStrip input.name
  if input.type == "wifi" && !optStrTruthy input.ip then
    .error (.badRequest "IP address is required for Wi-Fi devices")
  else if input.type == "zwave" && !optIntTruthy input.node_id then
    .error (.badRequest "Node ID is required for Z-Wave devices")
  else if (devices.find? (fun d => idMatches d (.str device_id))).isSome then
    .error (.conflict "Device ID already exists")
  else if input.type == "wifi" && optStrTruthy input.ip &&
      devices.any (fun d =>
        pyEq (pyGet d "ip") (.str (input.ip.getD "")) &&
        pyEq (pyGet d "type") (.str "wifi")) then
    .error (.conflict "A Wi-Fi device with this IP already exists")
  else
    let ipField := if input.type == "wifi" && optStrTruthy input.ip then input.ip else none
    let nodeField := if input.type == "zwave" && optIntTruthy input.node_id then input.node_id else none
    let new_device := pydanticDeviceDict device_id device_name "off" input.type
      ipField nodeField now now
    match add_device devices new_device now with
    | (true, devices') => .ok (devices', new_device)
    | (false, _) => .error (.serverError "Failed to save device to registry")

/-! ## Telemetry (`backend/app/core/telemetry.py`) -/

/-- The two independent event histories of `telemetry.json` (the metadata
block carries no history and is omitted). -/
structure TelemetryData where
  discovery_history : List JDict
  onboarding_history : List JDict

/-- The event object built by `log_discovery_event`. -/
def discoveryEvent (now : String) (wifi_found zwave_found duration_ms : Int) : JDict :=
  [("timestamp", .str now), ("wifi_found", .num wifi_found),
   ("zwave_found", .num zwave_found),
   ("total_found", .num (wifi_found + zwave_found)),
   ("duration_ms", .num duration_ms)]

/-- The event object built by `log_onboarding_event`. -/
def onboardingEvent (now device_id device_name device_type status : String) : JDict :=
  [("timestamp", .str now), ("device_id", .str device_id),
   ("device_name", .str device_name), ("type", .str device_type),
   ("status", .str status)]

/-- `TelemetryManager.log_discovery_event`: append the event and keep the last
50 entries (`data["discovery_history"][-50:]`); the onboarding history is not
touched. -/
def log_discovery_event (data : TelemetryData) (now : String)
    (wifi_found zwave_found duration_ms : Int) : TelemetryData :=
  { data with
      discovery_history :=
        pyLastN 50 (data.discovery_history ++
          [discoveryEvent now wifi_found zwave_found duration_ms]) }

/-- `TelemetryManager.log_onboarding_event`: append the event and keep the
last 100 entries (`data["onboarding_history"][-100:]`); the discovery history
is not touched. -/
def log_onboarding_event (data : TelemetryData)
    (now device_id device_name device_type status : String) : TelemetryData :=
  { data with
      onboarding_history :=
        pyLastN 100 (data.onboarding_history ++
          [onboardingEvent now device_id device_name device_type status]) }

/-! ## Wi-Fi discovery merge (`backend/app/core/discover.py`) -/

/-- The merge loop of `discover_wifi_devices`: walk the concatenated candidate
list; a candidate with a truthy, unseen `ip` is kept and its ip recorded; a
candidate without a (truthy) ip is kept unconditionally; a candidate whose ip
was already seen is dropped. -/
def dedupByIp : List JDict → List JVal → List JDict
  | [], _ => []
  | d :: rest, seen =>
      let ip := pyGet d "ip"
      if pyTruthy ip && !(seen.any (fun s => pyEq s ip)) then
        d :: dedupByIp rest (ip :: seen)
      else if !(pyTruthy ip) then
        d :: dedupByIp rest seen
      else
        dedupByIp rest seen

/-- `discover_wifi_devices` result merge: `all_devices = coiot_devices +
zeroconf_devices + subnet_devices` deduplicated by ip with an initially empty
`seen_ips` — CoIoT multicast first, then zeroconf service discovery, then the
subnet probe (when zeroconf is unavailable its list is empty). -/
def mergeWifiDevices (coiot zeroconf subnet : List JDict) : List JDict :=
  dedupByIp (coiot ++ zeroconf ++ subnet) []

/-! ## Full discovery fan-out (`discover_all_devices`) -/

/-- What each discovery family's awaited task produced: its device list, or
the exception value `asyncio.gather(..., return_exceptions=True)` handed back
(a raised exception or an `asyncio.TimeoutError` from `wait_for`). -/
structure DiscoveryOutcomes where
  wifi : Except String (List JDict)
  zwave : Except String (List JDict)
  govee : Except String (List JDict)
  govee_available : Bool

/-- The mapping `discover_all_devices` returns (always carrying the three
keys `wifi`, `zwave`, `govee`). -/
structure DiscoveryResult where
  wifi : List JDict
  zwave : List JDict
  govee : List JDict

/-- The `isinstance(x, Exception)` normalisation: an exception outcome
degrades to an empty list. -/
def exceptToList : Except String (List JDict) → List JDict
  | .ok l => l
  | .error _ => []

/-- `discover_all_devices`: each family's outcome normalised independently;
when the Govee module is unavailable its list is `[]` without running a
task. -/
def discover_all_devices (o : DiscoveryOutcomes) : DiscoveryResult :=
  { wifi := exceptToList o.wifi,
    zwave := exceptToList o.zwave,
    govee := if o.govee_available then exceptToList o.govee else [] }

/-! ## Protocol dispatch, control side (`backend/device_protocols.py`)

Each HTTP round-trip the adapter performs is an independent observation of
the device; a `ShellyWorld` records what every round-trip of one
`send_shelly_command` call would return. -/

/-- Outcome of one `httpx` GET: a transport failure (`httpx.RequestError`), or
a response with its status code and parsed JSON body (`none` when
`response.json()` would raise). -/
inductive HttpResult where
  | netError
  | resp (code : Nat) (body : Option JVal)

/-- Whether `response.raise_for_status()` passes (2xx). -/
def httpAck : HttpResult → Bool
  | .netError => false
  | .resp code _ => 200 ≤ code && code < 300

/-- `raise_for_status()` then `response.json()`: the body when the request
succeeded with 2xx and parses, `none` on transport error, HTTP error status
or invalid JSON (all of which the adapter catches). -/
def http2xxJson : HttpResult → Option JVal
  | .netError => none
  | .resp code body => if 200 ≤ code && code < 300 then body else none

/-- The Gen2 probe of `_detect_shelly_generation`: status code exactly 200,
JSON dict body, `"id" in result and result.get("id") == 0`. -/
def gen2DetectHit : HttpResult → Bool
  | .resp 200 (some (.obj d)) =>
      (match dictGet d "id" with
       | some v => pyEq v (.num 0)
       | none => false)
  | _ => false

/-- The Gen1 fallback probe of `_detect_shelly_generation`: status code 200,
JSON dict body containing `"ison"`. -/
def gen1DetectHit : HttpResult → Bool
  | .resp 200 (some (.obj d)) => dictContains d "ison"
  | _ => false

/-- `_detect_shelly_generation`: Gen2 endpoint first, Gen1 endpoint as
fallback, defaulting to `"gen1"` when both probes fail. -/
def detect_shelly_generation (g2 g1 : HttpResult) : String :=
  if gen2DetectHit g2 then "gen2"
  else if gen1DetectHit g1 then "gen1"
  else "gen1"

/-- `result.get(k1, \x7b\x7d).get(k2, dflt)`: `none` models the
`AttributeError` raised (and caught as a status failure) when `result[k1]` is
present but not a dict. -/
def jGetNested (d : JDict) (k1 k2 : String) (dflt : JVal) : Option JVal :=
  match dictGet d k1 with
  | none => some dflt
  | some (.obj d2) => some (jGetD d2 k2 dflt)
  | some _ => none

/-- The common-format status dict `get_shelly_status` builds from a Gen2
`/rpc/Switch.GetStatus` body (`none` when the body is not a dict or a nested
access raises). -/
def shellyStatusGen2 : JVal → Option JDict
  | .obj d => do
      let energy ← jGetNested d "aenergy" "total" (.num 0)
      let temperature ← jGetNested d "temperature" "tC" (.num 0)
      let overtemp ← jGetNested d "temperature" "overtemperature" (.bool false)
      some [("ison", jGetD d "output" (.bool false)),
            ("power", jGetD d "apower" (.num 0)),
            ("energy", energy),
            ("temperature", temperature),
            ("overtemperature", overtemp),
            ("generation", .str "gen2")]
  | _ => none

/-- The status dict `get_shelly_status` builds from a Gen1 `/relay/0` body
(`none` when the body is not a dict). -/
def shellyStatusGen1 : JVal → Option JDict
  | .obj d =>
      some [("ison", jGetD d "ison" (.bool false)),
            ("power", jGetD d "power" (.num 0)),
            ("energy", jGetD d "energy" (.num 0)),
            ("temperature", jGetD d "temperature" (.num 0)),
            ("overtemperature", jGetD d "overtemperature" (.bool false)),
            ("generation", .str "gen1")]
  | _ => none

/-- `get_shelly_status`: re-detect the generation (two fresh probes), read the
matching status endpoint, and normalise; any failure yields `None`. -/
def get_shelly_status (det_g2 det_g1 stat_g2 stat_g1 : HttpResult) : Option JDict :=
  if detect_shelly_generation det_g2 det_g1 == "gen2" then
    (http2xxJson stat_g2).bind shellyStatusGen2
  else
    (http2xxJson stat_g1).bind shellyStatusGen1

/-- Every network observation one `send_shelly_command` call can make, in
program order: the two initial detection probes, the command request on the
detected generation's endpoint, and — on the Gen2 path — the verification
`get_shelly_status` call's own two detection probes and status read. -/
structure ShellyWorld where
  det1_gen2 : HttpResult
  det1_gen1 : HttpResult
  cmd_gen2 : HttpResult
  cmd_gen1 : HttpResult
  det2_gen2 : HttpResult
  det2_gen1 : HttpResult
  stat_gen2 : HttpResult
  stat_gen1 : HttpResult

/-- `send_shelly_command`: require the `"on"` key; detect the generation.
Gen2: send `/rpc/Switch.Set`, require a 2xx acknowledgement, then re-read the
status and succeed only when the observed `ison` equals the requested state —
an unreadable verification is a failure.  Gen1: send `/relay/0?turn=...` and
compare the `ison` of the (2xx, JSON dict) command response with the
requested state; every transport, HTTP, or parse failure returns `False`. -/
def send_shelly_command (w : ShellyWorld) (command_payload : JDict) : Bool :=
  match dictGet command_payload "on" with
  | none => false
  | some command_state =>
      if detect_shelly_generation w.det1_gen2 w.det1_gen1 == "gen2" then
        if httpAck w.cmd_gen2 then
          match get_shelly_status w.det2_gen2 w.det2_gen1 w.stat_gen2 w.stat_gen1 with
          | some verification => pyEq (jGetD verification "ison" (.bool false)) command_state
          | none => false
        else false
      else
        match http2xxJson w.cmd_gen1 with
        | some (.obj result) => pyEq (jGetD result "ison" (.bool false)) command_state
        | _ => false

/-- The device state the call observes after sending the command: on the Gen2
path, the `ison` field of the verification status read (`none` when that read
fails); on the Gen1 path, the `ison` field of the command response itself
(`none` when there is no 2xx JSON-dict response to read a state from). -/
def shellyObservedState (w : ShellyWorld) : Option JVal :=
  if detect_shelly_generation w.det1_gen2 w.det1_gen1 == "gen2" then
    (get_shelly_status w.det2_gen2 w.det2_gen1 w.stat_gen2 w.stat_gen1).map
      (fun verification => jGetD verification "ison" (.bool false))
  else
    match http2xxJson w.cmd_gen1 with
    | some (.obj result) => some (jGetD result "ison" (.bool false))
    | _ => none

/-- `send_zwave_command`: the placeholder Z-Wave adapter.  The body only logs
and returns `True`; no controller, node or payload information influences the
result. -/
def send_zwave_command (node_id : Int) (command_payload : JDict) : Bool :=
  true

/-! ## Claim theorems -/

/-- C9: for every node id and command payload, the Z-Wave control adapter
reports success — it is a placeholder whose result never reflects a real
device outcome. -/
theorem zwave_command_always_reports_success (node_id : Int) (command_payload : JDict) :
    send_zwave_command node_id command_payload = true := rfl

/-- C8: the full discovery operation yields an entry for each of the three
families (the `DiscoveryResult` record always carries `wifi`, `zwave` and
`govee`); a family whose adapter raised or timed out contributes the empty
list, and each family's entry is determined by that family's own outcome
alone, so one family's failure leaves the others unaffected. -/
theorem discover_all_isolates_failures (o : DiscoveryOutcomes) (e : String) :
    (o.wifi = .error e → (discover_all_devices o).wifi = [])
    ∧ (o.zwave = .error e → (discover_all_devices o).zwave = [])
    ∧ (o.govee = .error e → (discover_all_devices o).govee = [])
    ∧ (discover_all_devices o).wifi = exceptToList o.wifi
    ∧ (discover_all_devices o).zwave = exceptToList o.zwave
    ∧ (o.govee_available = true → (discover_all_devices o).govee = exceptToList o.govee) := by
  refine ⟨fun h => ?_, fun h => ?_, fun h => ?_, rfl, rfl, fun h => ?_⟩ <;>
    simp [discover_all_devices, exceptToList, h]

theorem discover_all_isolates_failures_witness :
    ({ wifi := .error "timeout", zwave := .ok [[("node_id", .num 3)]],
       govee := .ok [], govee_available := true : DiscoveryOutcomes }.wifi
        = .error "timeout")
    ∧ (discover_all_devices
        { wifi := .error "timeout", zwave := .ok [[("node_id", .num 3)]],
          govee := .ok [], govee_available := true }).wifi = [] :=
  ⟨rfl, (discover_all_isolates_failures
    { wifi := .error "timeout", zwave := .ok [[("node_id", .num 3)]],
      govee := .ok [], govee_available := true } "timeout").1 rfl⟩

/-- C7: each event kind's history is independently capped — discovery at 50,
onboarding at 100.  Logging one more event than the cap drops exactly the
oldest event of that kind, leaves the cap's worth of newest events, and
leaves the other kind's history untouched. -/
theorem telemetry_history_caps (data : TelemetryData) (now : String)
    (w z dur : Int) (device_id device_name device_type status : String)
    (hd : data.discovery_history.length = 50)
    (ho : data.onboarding_history.length = 100) :
    (log_discovery_event data now w z dur).discovery_history
        = data.discovery_history.drop 1 ++ [discoveryEvent now w z dur]
    ∧ (log_discovery_event data now w z dur).discovery_history.length = 50
    ∧ (log_discovery_event data now w z dur).onboarding_history
        = data.onboarding_history
    ∧ (log_onboarding_event data now device_id device_name device_type status).onboarding_history
        = data.onboarding_history.drop 1
            ++ [onboardingEvent now device_id device_name device_type status]
    ∧ (log_onboarding_event data now device_id device_name device_type status).onboarding_history.length
        = 100
    ∧ (log_onboarding_event data now device_id device_name device_type status).discovery_history
        = data.discovery_history := by
  have hdrop : ∀ (l : List JDict) (e : JDict) (n : Nat), l.length = n → 1 ≤ n →
      pyLastN n (l ++ [e]) = l.drop 1 ++ [e] := by
    intro l e n hn hn1
    have h1 : (l ++ [e]).length - n = 1 := by
      simp only [List.length_append, List.length_cons, List.length_nil, hn]
      omega
    rw [pyLastN, h1, List.drop_append_of_le_length (by omega)]
  have hd50 := hdrop data.discovery_history (discoveryEvent now w z dur) 50 hd (by omega)
  have ho100 := hdrop data.onboarding_history
    (onboardingEvent now device_id device_name device_type status) 100 ho (by omega)
  refine ⟨hd50, ?_, rfl, ho100, ?_, rfl⟩
  · rw [log_discovery_event]
    simp only [hd50, List.length_append, List.length_drop, List.length_cons,
      List.length_nil, hd]
  · rw [log_onboarding_event]
    simp only [ho100, List.length_append, List.length_drop, List.length_cons,
      List.length_nil, ho]

theorem telemetry_history_caps_witness :
    (List.replicate 50 (discoveryEvent "T0" 0 0 0)).length = 50
    ∧ (log_discovery_event
        ⟨List.replicate 50 (discoveryEvent "T0" 0 0 0),
         List.replicate 100 (onboardingEvent "T0" "d" "D" "wifi" "added")⟩
        "T1" 1 2 3).discovery_history
      = (List.replicate 50 (discoveryEvent "T0" 0 0 0)).drop 1
          ++ [discoveryEvent "T1" 1 2 3] :=
  ⟨rfl,
    (telemetry_history_caps
      ⟨List.replicate 50 (discoveryEvent "T0" 0 0 0),
       List.replicate 100 (onboardingEvent "T0" "d" "D" "wifi" "added")⟩
      "T1" 1 2 3 "d" "D" "wifi" "added" (by simp) (by simp)).1⟩

/-- C6: a save serializes the whole document to the temporary file first and
only then renames it over the live file: after any strict prefix of the
save's file-system steps (in particular, after the temp file is written but
before the rename) the live registry file still holds the previously
committed state, and only the completed save publishes the new list. -/
theorem save_registry_atomic (fs : FState) (devs : List JDict) (k : Nat)
    (hk : k < (saveOps devs).length) :
    (runOps fs ((saveOps devs).take k)).reg = fs.reg
    ∧ (save_registry_sync fs devs).2.reg = some (.jsonList devs)
    ∧ (save_registry_sync fs devs).1 = true := by
  refine ⟨?_, rfl, rfl⟩
  match k, hk with
  | 0, _ => rfl
  | 1, _ => rfl

theorem save_registry_atomic_witness :
    1 < (saveOps [[("id", .str "plug1")]]).length
    ∧ (runOps ⟨some (.jsonList []), none, none⟩
        ((saveOps [[("id", .str "plug1")]]).take 1)).reg = some (.jsonList []) :=
  ⟨by simp [saveOps],
    (save_registry_atomic ⟨some (.jsonList []), none, none⟩ [[("id", .str "plug1")]] 1
      (by simp [saveOps])).1⟩

/-- C5: when the registry file fails to parse, `load` returns the empty list
instead of propagating the parse error, and the corrupt content is renamed
aside to the backup path — preserved on disk, not deleted. -/
theorem load_recovers_from_corruption (fs : FState) (now raw : String)
    (h : fs.reg = some (.malformed raw)) :
    (load_registry_sync fs now).1 = []
    ∧ (load_registry_sync fs now).2.backup = some (.malformed raw)
    ∧ (load_registry_sync fs now).2.reg = none := by
  simp [load_registry_sync, h]

theorem load_recovers_from_corruption_witness :
    (FState.mk (some (.malformed "not json")) none none).reg
        = some (.malformed "not json")
    ∧ (load_registry_sync ⟨some (.malformed "not json"), none, none⟩ "T").1 = []
    ∧ (load_registry_sync ⟨some (.malformed "not json"), none, none⟩ "T").2.backup
        = some (.malformed "not json") :=
  ⟨rfl,
    (load_recovers_from_corruption ⟨some (.malformed "not json"), none, none⟩ "T"
      "not json" rfl).1,
    (load_recovers_from_corruption ⟨some (.malformed "not json"), none, none⟩ "T"
      "not json" rfl).2.1⟩

/-- C10: a present-but-empty registry file, or one holding valid JSON whose
top level is not a list, makes `load` return the empty list with the file
system untouched — no backup rename and no sample-device re-seeding; the
backup path changes only when the content actually fails to parse. -/
theorem load_empty_or_nonlist_untouched (fs : FState) (now : String) (v : JVal) :
    (fs.reg = some .emptyContent → load_registry_sync fs now = ([], fs))
    ∧ (fs.reg = some (.jsonNonList v) → load_registry_sync fs now = ([], fs))
    ∧ ((load_registry_sync fs now).2.backup ≠ fs.backup →
        ∃ raw, fs.reg = some (.malformed raw)) := by
  refine ⟨fun h => by simp [load_registry_sync, h], fun h => by simp [load_registry_sync, h], ?_⟩
  intro hb
  match hreg : fs.reg with
  | none =>
      exact absurd (by simp [load_registry_sync, hreg, save_registry_sync, runOps,
        saveOps, applyOp]) hb
  | some .emptyContent => exact absurd (by simp [load_registry_sync, hreg]) hb
  | some (.malformed raw) => exact ⟨raw, rfl⟩
  | some (.jsonNonList v') => exact absurd (by simp [load_registry_sync, hreg]) hb
  | some (.jsonList devs) => exact absurd (by simp [load_registry_sync, hreg]) hb

theorem load_empty_or_nonlist_untouched_witness :
    (FState.mk (some .emptyContent) none none).reg = some .emptyContent
    ∧ load_registry_sync ⟨some .emptyContent, none, none⟩ "T"
        = ([], ⟨some .emptyContent, none, none⟩)
    ∧ load_registry_sync ⟨some (.jsonNonList (.obj [])), none, none⟩ "T"
        = ([], ⟨some (.jsonNonList (.obj [])), none, none⟩) :=
  ⟨rfl,
    (load_empty_or_nonlist_untouched ⟨some .emptyContent, none, none⟩ "T" .null).1 rfl,
    (load_empty_or_nonlist_untouched ⟨some (.jsonNonList (.obj [])), none, none⟩ "T"
      (.obj [])).2.1 rfl⟩

/-- C2: the Wi-Fi relay command reports success only when the state observed
after sending the command equals the requested state: success implies the
post-command reading matched; a reading of the opposite state — even after a
2xx transport acknowledgement — makes the command report failure; and an
unreadable post-command state also reports failure. -/
theorem shelly_command_verifies_state (w : ShellyWorld) (command_payload : JDict)
    (command_state : JVal)
    (hp : dictGet command_payload "on" = some command_state) :
    (send_shelly_command w command_payload = true →
      ∃ v, shellyObservedState w = some v ∧ pyEq v command_state = true)
    ∧ (∀ v, shellyObservedState w = some v → pyEq v command_state = false →
        send_shelly_command w command_payload = false)
    ∧ (shellyObservedState w = none → send_shelly_command w command_payload = false) := by
  simp only [send_shelly_command, shellyObservedState, hp]
  by_cases hdet : (detect_shelly_generation w.det1_gen2 w.det1_gen1 == "gen2") = true
  · simp only [hdet, if_true]
    by_cases hack : httpAck w.cmd_gen2 = true
    · simp only [hack, if_true]
      cases hv : get_shelly_status w.det2_gen2 w.det2_gen1 w.stat_gen2 w.stat_gen1 with
      | none => simp
      | some verification =>
          refine ⟨fun h => ⟨_, rfl, h⟩, fun v hv2 hne => ?_, fun h => by simp at h⟩
          simp at hv2
          subst hv2
          exact hne
    · simp only [Bool.not_eq_true] at hack
      simp [hack]
  · simp only [Bool.not_eq_true] at hdet
    simp only [hdet, if_false, Bool.false_eq_true]
    cases hc : http2xxJson w.cmd_gen1 with
    | none => simp
    | some body =>
        cases body with
        | obj result =>
            refine ⟨fun h => ⟨_, rfl, h⟩, fun v hv2 hne => ?_, fun h => by simp at h⟩
            simp at hv2
            subst hv2
            exact hne
        | null => simp
        | str s => simp
        | num n => simp
        | bool b => simp

theorem shelly_command_verifies_state_witness :
    httpAck (HttpResult.resp 200 (some (.obj [("ison", .bool false)]))) = true
    ∧ shellyObservedState
        ⟨.netError, .resp 200 (some (.obj [("ison", .bool false)])),
         .netError, .resp 200 (some (.obj [("ison", .bool false)])),
         .netError, .netError, .netError, .netError⟩
        = some (.bool false)
    ∧ pyEq (.bool false) (.bool true) = false
    ∧ send_shelly_command
        ⟨.netError, .resp 200 (some (.obj [("ison", .bool false)])),
         .netError, .resp 200 (some (.obj [("ison", .bool false)])),
         .netError, .netError, .netError, .netError⟩
        [("on", .bool true)] = false :=
  ⟨rfl, rfl, rfl,
    (shelly_command_verifies_state
      ⟨.netError, .resp 200 (some (.obj [("ison", .bool false)])),
       .netError, .resp 200 (some (.obj [("ison", .bool false)])),
       .netError, .netError, .netError, .netError⟩
      [("on", .bool true)] (.bool true) rfl).2.1 (.bool false) rfl rfl⟩

/-! ### Auxiliary lemmas for the Wi-Fi merge -/

/-- The candidate-with-ip observation used to state the dedup claims: the
candidate's `ip` field Python-equals the string `s`. -/
def hasIp (s : String) (d : JDict) : Bool :=
  pyEq (pyGet d "ip") (.str s)

theorem pyEq_str_iff (v : JVal) (s : String) : pyEq v (.str s) = true ↔ v = .str s := by
  cases v <;> simp [pyEq]

theorem pyEq_str_self (s : String) : pyEq (.str s) (.str s) = true := by
  simp [pyEq]

/-- Once an ip equal to `s` is in `seen_ips`, no candidate with that ip
survives the rest of the merge loop. -/
theorem dedup_countP_zero (l : List JDict) (seen : List JVal) (s : String)
    (hs : s.isEmpty = false)
    (hseen : seen.any (fun x => pyEq x (.str s)) = true) :
    (dedupByIp l seen).countP (hasIp s) = 0 := by
  induction l generalizing seen with
  | nil => rfl
  | cons d rest ih =>
      have hpd : hasIp s d = true → pyGet d "ip" = JVal.str s := fun h =>
        (pyEq_str_iff _ _).1 h
      simp only [dedupByIp]
      by_cases hkeep : (pyTruthy (pyGet d "ip")
          && !(seen.any fun x => pyEq x (pyGet d "ip"))) = true
      · rw [if_pos hkeep, List.countP_cons]
        have hpd2 : hasIp s d = false := by
          by_contra hcon
          have h1 : pyGet d "ip" = .str s := hpd (by revert hcon; cases hasIp s d <;> simp)
          rw [h1] at hkeep
          simp [hseen] at hkeep
        rw [ih (pyGet d "ip" :: seen) (by simp [List.any_cons, hseen]), hpd2]
        simp
      · rw [if_neg hkeep]
        by_cases htru : pyTruthy (pyGet d "ip") = true
        · have h2 : ¬((!pyTruthy (pyGet d "ip")) = true) := by rw [htru]; simp
          rw [if_neg h2]
          exact ih seen hseen
        · have htru2 : pyTruthy (pyGet d "ip") = false := by
            revert htru; cases pyTruthy (pyGet d "ip") <;> simp
          have h2 : (!pyTruthy (pyGet d "ip")) = true := by rw [htru2]; rfl
          rw [if_pos h2, List.countP_cons]
          have hpd2 : hasIp s d = false := by
            by_contra hcon
            have h1 : pyGet d "ip" = .str s := hpd (by revert hcon; cases hasIp s d <;> simp)
            rw [h1, pyTruthy] at htru2
            simp [hs] at htru2
          rw [ih seen hseen, hpd2]
          simp

/-- While no ip equal to `s` has been seen, the merge loop keeps at most one
candidate with that ip, and the one it keeps is the first such candidate of
the remaining input. -/
theorem dedup_countP_find (l : List JDict) (seen : List JVal) (s : String)
    (hs : s.isEmpty = false)
    (hseen : seen.any (fun x => pyEq x (.str s)) = false) :
    (dedupByIp l seen).countP (hasIp s) ≤ 1
    ∧ (dedupByIp l seen).find? (hasIp s) = l.find? (hasIp s) := by
  induction l generalizing seen with
  | nil => exact ⟨by simp [dedupByIp], rfl⟩
  | cons d rest ih =>
      simp only [dedupByIp]
      by_cases hkeep : (pyTruthy (pyGet d "ip")
          && !(seen.any fun x => pyEq x (pyGet d "ip"))) = true
      · rw [if_pos hkeep]
        by_cases hpd : hasIp s d = true
        · have h1 : pyGet d "ip" = .str s := (pyEq_str_iff _ _).1 hpd
          have hz : (dedupByIp rest (pyGet d "ip" :: seen)).countP (hasIp s) = 0 := by
            refine dedup_countP_zero rest _ s hs ?_
            simp [List.any_cons, h1, pyEq_str_self]
          constructor
          · rw [List.countP_cons, hz, hpd]
            simp
          · rw [List.find?_cons_of_pos _ hpd, List.find?_cons_of_pos _ hpd]
        · have hpd2 : hasIp s d = false := by revert hpd; cases hasIp s d <;> simp
          have hnotseen : ((pyGet d "ip" :: seen).any fun x => pyEq x (.str s)) = false := by
            have h3 : pyEq (pyGet d "ip") (.str s) = false := hpd2
            simp [List.any_cons, h3, hseen]
          obtain ⟨ihc, ihf⟩ := ih (pyGet d "ip" :: seen) hnotseen
          constructor
          · rw [List.countP_cons, hpd2]
            simpa using ihc
          · rw [List.find?_cons_of_neg _ (by simp [hpd2]),
              List.find?_cons_of_neg _ (by simp [hpd2]), ihf]
      · rw [if_neg hkeep]
        by_cases htru : pyTruthy (pyGet d "ip") = true
        · -- dropped: ip truthy but already seen
          have hpd2 : hasIp s d = false := by
            by_contra hcon
            have hpd : hasIp s d = true := by revert hcon; cases hasIp s d <;> simp
            have h1 : pyGet d "ip" = .str s := (pyEq_str_iff _ _).1 hpd
            rw [h1] at hkeep htru
            simp [htru, hseen] at hkeep
          have h2 : ¬((!pyTruthy (pyGet d "ip")) = true) := by rw [htru]; simp
          rw [if_neg h2]
          obtain ⟨ihc, ihf⟩ := ih seen hseen
          exact ⟨ihc, by rw [ihf, List.find?_cons_of_neg _ (by simp [hpd2])]⟩
        · -- kept: no truthy ip
          have htru2 : pyTruthy (pyGet d "ip") = false := by
            revert htru; cases pyTruthy (pyGet d "ip") <;> simp
          have hpd2 : hasIp s d = false := by
            by_contra hcon
            have hpd : hasIp s d = true := by revert hcon; cases hasIp s d <;> simp
            have h1 : pyGet d "ip" = .str s := (pyEq_str_iff _ _).1 hpd
            rw [h1, pyTruthy] at htru2
            simp [hs] at htru2
          have h2 : (!pyTruthy (pyGet d "ip")) = true := by rw [htru2]; rfl
          rw [if_pos h2]
          obtain ⟨ihc, ihf⟩ := ih seen hseen
          constructor
          · rw [List.countP_cons, hpd2]
            simpa using ihc
          · rw [List.find?_cons_of_neg _ (by simp [hpd2]),
              List.find?_cons_of_neg _ (by simp [hpd2]), ihf]

/-- C3: the merged Wi-Fi discovery result keeps at most one candidate per ip;
when some sub-strategy reported an ip, exactly one candidate with it
survives, and the survivor is the first match scanning CoIoT multicast
first, then zeroconf service discovery, then the subnet probe — in
particular it comes from multicast when multicast reported the ip, from
service discovery when only service discovery and the probe did, and from
the probe when only the probe did. -/
theorem wifi_merge_identity_dedup (coiot zeroconf subnet : List JDict) (s : String)
    (hs : s.isEmpty = false) :
    (mergeWifiDevices coiot zeroconf subnet).countP (hasIp s) ≤ 1
    ∧ (mergeWifiDevices coiot zeroconf subnet).find? (hasIp s)
        = (coiot ++ zeroconf ++ subnet).find? (hasIp s)
    ∧ ((coiot ++ zeroconf ++ subnet).any (hasIp s) = true →
        (mergeWifiDevices coiot zeroconf subnet).countP (hasIp s) = 1)
    ∧ (coiot.any (hasIp s) = true →
        (mergeWifiDevices coiot zeroconf subnet).find? (hasIp s) = coiot.find? (hasIp s)
        ∧ ∃ d, coiot.find? (hasIp s) = some d ∧ d ∈ coiot ∧ hasIp s d = true)
    ∧ (coiot.any (hasIp s) = false → zeroconf.any (hasIp s) = true →
        (mergeWifiDevices coiot zeroconf subnet).find? (hasIp s) = zeroconf.find? (hasIp s)
        ∧ ∃ d, zeroconf.find? (hasIp s) = some d ∧ d ∈ zeroconf ∧ hasIp s d = true)
    ∧ (coiot.any (hasIp s) = false → zeroconf.any (hasIp s) = false →
        subnet.any (hasIp s) = true →
        (mergeWifiDevices coiot zeroconf subnet).find? (hasIp s) = subnet.find? (hasIp s)
        ∧ ∃ d, subnet.find? (hasIp s) = some d ∧ d ∈ subnet ∧ hasIp s d = true) := by
  obtain ⟨hle, hfind⟩ := dedup_countP_find (coiot ++ zeroconf ++ subnet) [] s hs (by simp)
  rw [mergeWifiDevices]
  have hfsome : ∀ (l : List JDict), l.any (hasIp s) = true →
      ∃ d, l.find? (hasIp s) = some d ∧ d ∈ l ∧ hasIp s d = true := by
    intro l hany
    have hiss : (l.find? (hasIp s)).isSome := by
      rw [List.find?_isSome]
      simpa [List.any_eq_true] using hany
    obtain ⟨d, hd⟩ := Option.isSome_iff_exists.1 hiss
    exact ⟨d, hd, List.mem_of_find?_eq_some hd, List.find?_some hd⟩
  have hnone : ∀ (l : List JDict), l.any (hasIp s) = false →
      l.find? (hasIp s) = none := by
    intro l hany
    rw [List.find?_eq_none]
    intro x hx hpx
    have hx2 : l.any (hasIp s) = true := by
      rw [List.any_eq_true]
      exact ⟨x, hx, hpx⟩
    rw [hx2] at hany
    cases hany
  refine ⟨hle, hfind, ?_, ?_, ?_, ?_⟩
  · intro hany
    obtain ⟨d, hd, hmemc, hpd⟩ := hfsome _ hany
    have hmemm : d ∈ dedupByIp (coiot ++ zeroconf ++ subnet) [] :=
      List.mem_of_find?_eq_some (by rw [hfind, hd])
    have hpos : 0 < (dedupByIp (coiot ++ zeroconf ++ subnet) []).countP (hasIp s) :=
      List.countP_pos_iff.2 ⟨d, hmemm, hpd⟩
    omega
  · intro hany
    obtain ⟨d, hd, hmem, hpd⟩ := hfsome coiot hany
    refine ⟨?_, d, hd, hmem, hpd⟩
    rw [hfind, List.find?_append, List.find?_append, hd]
    rfl
  · intro hcf hany
    obtain ⟨d, hd, hmem, hpd⟩ := hfsome zeroconf hany
    refine ⟨?_, d, hd, hmem, hpd⟩
    rw [hfind, List.find?_append, List.find?_append, hnone coiot hcf, hd]
    rfl
  · intro hcf hzf hany
    obtain ⟨d, hd, hmem, hpd⟩ := hfsome subnet hany
    refine ⟨?_, d, hd, hmem, hpd⟩
    rw [hfind, List.find?_append, List.find?_append, hnone coiot hcf,
      hnone zeroconf hzf, hd]
    rfl

theorem wifi_merge_identity_dedup_witness :
    ("10.0.0.86" : String).isEmpty = false
    ∧ [[("ip", JVal.str "10.0.0.86"), ("source", JVal.str "coiot")]].any (hasIp "10.0.0.86")
        = true
    ∧ (mergeWifiDevices
        [[("ip", JVal.str "10.0.0.86"), ("source", JVal.str "coiot")]]
        [[("ip", JVal.str "10.0.0.86"), ("source", JVal.str "zeroconf")]]
        [[("ip", JVal.str "10.0.0.86"), ("source", JVal.str "subnet")]]).countP
          (hasIp "10.0.0.86") = 1
    ∧ (mergeWifiDevices
        [[("ip", JVal.str "10.0.0.86"), ("source", JVal.str "coiot")]]
        [[("ip", JVal.str "10.0.0.86"), ("source", JVal.str "zeroconf")]]
        [[("ip", JVal.str "10.0.0.86"), ("source", JVal.str "subnet")]]).find?
          (hasIp "10.0.0.86")
        = some [("ip", JVal.str "10.0.0.86"), ("source", JVal.str "coiot")]
    ∧ ([] : List JDict).any (hasIp "10.0.0.99") = false
    ∧ [[("ip", JVal.str "10.0.0.99"), ("source", JVal.str "zeroconf")]].any (hasIp "10.0.0.99")
        = true
    ∧ (mergeWifiDevices []
        [[("ip", JVal.str "10.0.0.99"), ("source", JVal.str "zeroconf")]]
        [[("ip", JVal.str "10.0.0.99"), ("source", JVal.str "subnet")]]).find?
          (hasIp "10.0.0.99")
        = some [("ip", JVal.str "10.0.0.99"), ("source", JVal.str "zeroconf")] := by
  refine ⟨rfl, rfl, ?_, ?_, rfl, rfl, ?_⟩
  · exact (wifi_merge_identity_dedup
      [[("ip", JVal.str "10.0.0.86"), ("source", JVal.str "coiot")]]
      [[("ip", JVal.str "10.0.0.86"), ("source", JVal.str "zeroconf")]]
      [[("ip", JVal.str "10.0.0.86"), ("source", JVal.str "subnet")]]
      "10.0.0.86" rfl).2.2.1 rfl
  · rw [((wifi_merge_identity_dedup
      [[("ip", JVal.str "10.0.0.86"), ("source", JVal.str "coiot")]]
      [[("ip", JVal.str "10.0.0.86"), ("source", JVal.str "zeroconf")]]
      [[("ip", JVal.str "10.0.0.86"), ("source", JVal.str "subnet")]]
      "10.0.0.86" rfl).2.2.2.1 rfl).1]
    rfl
  · rw [((wifi_merge_identity_dedup []
      [[("ip", JVal.str "10.0.0.99"), ("source", JVal.str "zeroconf")]]
      [[("ip", JVal.str "10.0.0.99"), ("source", JVal.str "subnet")]]
      "10.0.0.99" rfl).2.2.2.2.1 rfl rfl).1]
    rfl

/-! ### Dictionary lemmas for the registry upsert -/

theorem dictGet_dictSet_self (d : JDict) (k : String) (v : JVal) :
    dictGet (dictSet d k v) k = some v := by
  induction d with
  | nil => simp [dictSet, dictGet]
  | cons kv rest ih =>
      obtain ⟨k', v'⟩ := kv
      by_cases h : k' = k
      · simp [dictSet, dictGet, h]
      · simp [dictSet, dictGet, h, ih]

theorem dictGet_dictSet_ne (d : JDict) (k k' : String) (v : JVal) (h : k' ≠ k) :
    dictGet (dictSet d k v) k' = dictGet d k' := by
  induction d with
  | nil => simp [dictSet, dictGet, Ne.symm h]
  | cons kv rest ih =>
      obtain ⟨k0, v0⟩ := kv
      by_cases h0 : k0 = k
      · subst h0
        simp [dictSet, dictGet, Ne.symm h]
      · by_cases h1 : k0 = k'
        · simp [dictSet, dictGet, h0, h1, h]
        · simp [dictSet, dictGet, h0, h1, h, ih]

theorem dictContains_dictSet_ne (d : JDict) (k k' : String) (v : JVal) (h : k' ≠ k) :
    dictContains (dictSet d k v) k' = dictContains d k' := by
  rw [dictContains, dictContains, dictGet_dictSet_ne _ _ _ _ h]

theorem dictGet_eq_none_of_not_mem_keys (d : JDict) (k : String)
    (h : k ∉ d.map Prod.fst) : dictGet d k = none := by
  induction d with
  | nil => rfl
  | cons kv rest ih =>
      obtain ⟨k0, v0⟩ := kv
      simp only [List.map_cons, List.mem_cons, not_or] at h
      rw [dictGet, if_neg (fun he => h.1 he.symm)]
      exact ih h.2

theorem dictGet_dictUpdate_none (d upd : JDict) (k : String)
    (h : dictGet upd k = none) :
    dictGet (dictUpdate d upd) k = dictGet d k := by
  induction upd generalizing d with
  | nil => rfl
  | cons kv rest ih =>
      obtain ⟨k0, v0⟩ := kv
      have hne : k0 ≠ k := by
        intro he
        rw [dictGet, if_pos he] at h
        cases h
      rw [dictGet, if_neg hne] at h
      show dictGet (dictUpdate (dictSet d k0 v0) rest) k = dictGet d k
      rw [ih (dictSet d k0 v0) h, dictGet_dictSet_ne _ _ _ _ (Ne.symm hne)]

theorem dictGet_dictUpdate_some (d upd : JDict) (k : String) (v : JVal)
    (hnodup : (upd.map Prod.fst).Nodup)
    (h : dictGet upd k = some v) :
    dictGet (dictUpdate d upd) k = some v := by
  induction upd generalizing d with
  | nil => cases h
  | cons kv rest ih =>
      obtain ⟨k0, v0⟩ := kv
      simp only [List.map_cons, List.nodup_cons] at hnodup
      by_cases hk : k0 = k
      · subst hk
        rw [dictGet, if_pos rfl] at h
        have hrest : dictGet rest k0 = none :=
          dictGet_eq_none_of_not_mem_keys rest k0 hnodup.1
        show dictGet (dictUpdate (dictSet d k0 v0) rest) k0 = some v
        rw [dictGet_dictUpdate_none _ _ _ hrest, dictGet_dictSet_self]
        exact h
      · rw [dictGet, if_neg hk] at h
        show dictGet (dictUpdate (dictSet d k0 v0) rest) k = some v
        exact ih (dictSet d k0 v0) hnodup.2 h

/-! ### `add_device` case lemmas -/

/-- When the id already exists, `add_device` takes the update-in-place branch
and still reports success. -/
theorem add_device_update_case (devices : List JDict) (dd : JDict) (now : String)
    (idv : JVal)
    (hval : (dictContains dd "id" && dictContains dd "name" && dictContains dd "type") = true)
    (hid : pyGet dd "id" = idv)
    (hany : devices.any (fun d => idMatches d idv) = true) :
    add_device devices dd now = (true, updateFirstById devices idv dd now) := by
  rw [add_device, if_pos hval, hid, if_pos hany]

theorem dictGet_statusDefault_ne (d : JDict) (k : String) (h : k ≠ "status") :
    dictGet (statusDefault d) k = dictGet d k := by
  rw [statusDefault]
  by_cases hc : dictContains d "status" = true
  · rw [if_pos hc]
  · rw [if_neg hc, dictGet_dictSet_ne _ _ _ _ h]

theorem dictGet_statusDefault_absent (d : JDict) (h : dictContains d "status" = false) :
    dictGet (statusDefault d) "status" = some (.str "unknown") := by
  rw [statusDefault, if_neg (by rw [h]; simp), dictGet_dictSet_self]

/-- When the id is new, `add_device` appends one stamped record whose `id` and
`name` are those of the input and whose `status` defaults to `"unknown"` when
the input carries none. -/
theorem add_device_append_case (devices : List JDict) (dd : JDict) (now : String)
    (idv : JVal)
    (hval : (dictContains dd "id" && dictContains dd "name" && dictContains dd "type") = true)
    (hid : pyGet dd "id" = idv)
    (hany : devices.any (fun d => idMatches d idv) = false) :
    add_device devices dd now = (true, devices ++
        [statusDefault (dictSet (dictSet dd "added_at" (.str now)) "last_seen" .null)])
    ∧ dictGet (statusDefault (dictSet (dictSet dd "added_at" (.str now)) "last_seen" .null))
        "id" = dictGet dd "id"
    ∧ dictGet (statusDefault (dictSet (dictSet dd "added_at" (.str now)) "last_seen" .null))
        "name" = dictGet dd "name"
    ∧ (dictContains dd "status" = false →
        dictGet (statusDefault (dictSet (dictSet dd "added_at" (.str now)) "last_seen" .null))
          "status" = some (.str "unknown")) := by
  have hcs : dictContains (dictSet (dictSet dd "added_at" (.str now)) "last_seen" .null)
      "status" = dictContains dd "status" := by
    rw [dictContains_dictSet_ne _ _ _ _ (by decide),
      dictContains_dictSet_ne _ _ _ _ (by decide)]
  refine ⟨?_, ?_, ?_, ?_⟩
  · rw [add_device, if_pos hval, hid, if_neg (by rw [hany]; simp)]
  · rw [dictGet_statusDefault_ne _ _ (by decide), dictGet_dictSet_ne _ _ _ _ (by decide),
      dictGet_dictSet_ne _ _ _ _ (by decide)]
  · rw [dictGet_statusDefault_ne _ _ (by decide), dictGet_dictSet_ne _ _ _ _ (by decide),
      dictGet_dictSet_ne _ _ _ _ (by decide)]
  · intro hno
    exact dictGet_statusDefault_absent _ (by rw [hcs, hno])

/-- Updating the first matching record preserves any count whose predicate the
update preserves on matched records. -/
theorem countP_updateFirstById (devices : List JDict) (target : JVal) (dd : JDict)
    (now : String) (p : JDict → Bool)
    (hpres : ∀ d, idMatches d target = true →
        p (dictSet (dictUpdate d dd) "updated_at" (.str now)) = p d) :
    (updateFirstById devices target dd now).countP p = devices.countP p := by
  induction devices with
  | nil => rfl
  | cons d rest ih =>
      simp only [updateFirstById]
      by_cases hd : idMatches d target = true
      · rw [if_pos hd, List.countP_cons, List.countP_cons, hpres d hd]
      · rw [if_neg hd, List.countP_cons, List.countP_cons, ih]

/-- After an update-in-place, the first matching record of the result is the
updated first matching record of the input. -/
theorem find?_updateFirstById (devices : List JDict) (target : JVal) (dd : JDict)
    (now : String)
    (hany : devices.any (fun d => idMatches d target) = true)
    (hpres : ∀ d, idMatches d target = true →
        idMatches (dictSet (dictUpdate d dd) "updated_at" (.str now)) target = true) :
    ∃ d0, devices.find? (fun d => idMatches d target) = some d0
      ∧ (updateFirstById devices target dd now).find? (fun d => idMatches d target)
          = some (dictSet (dictUpdate d0 dd) "updated_at" (.str now)) := by
  induction devices with
  | nil => cases hany
  | cons d rest ih =>
      by_cases hd : idMatches d target = true
      · refine ⟨d, List.find?_cons_of_pos _ hd, ?_⟩
        simp only [updateFirstById]
        rw [if_pos hd]
        exact List.find?_cons_of_pos _ (hpres d hd)
      · have hd2 : idMatches d target = false := by
          revert hd; cases idMatches d target <;> simp
        have hany2 : rest.any (fun d => idMatches d target) = true := by
          rw [List.any_cons, hd2] at hany
          simpa using hany
        obtain ⟨d0, hfd, hfu⟩ := ih hany2
        refine ⟨d0, ?_, ?_⟩
        · rw [List.find?_cons_of_neg _ (by simp [hd2]), hfd]
        · simp only [updateFirstById]
          rw [if_neg hd, List.find?_cons_of_neg _ (by simp [hd2]), hfu]

/-- C4: adding twice with the same id is an idempotent upsert.  Starting from
any registry holding at most one record with the id, both adds report success
(the registry-level `add` never rejects a duplicate id), exactly one record
with that id remains, and that record carries the second call's `name` with
`updated_at` stamped to the second call's time. -/
theorem add_device_idempotent_upsert
    (devices : List JDict) (dd1 dd2 : JDict) (i : String) (n2 : JVal) (now1 now2 : String)
    (h1id : dictGet dd1 "id" = some (.str i))
    (h2id : dictGet dd2 "id" = some (.str i))
    (h1name : dictContains dd1 "name" = true)
    (h2name : dictGet dd2 "name" = some n2)
    (h1type : dictContains dd1 "type" = true)
    (h2type : dictContains dd2 "type" = true)
    (h1nodup : (dd1.map Prod.fst).Nodup)
    (h2nodup : (dd2.map Prod.fst).Nodup)
    (hcount : devices.countP (fun d => idMatches d (.str i)) ≤ 1) :
    (add_device devices dd1 now1).1 = true
    ∧ (add_device (add_device devices dd1 now1).2 dd2 now2).1 = true
    ∧ (add_device (add_device devices dd1 now1).2 dd2 now2).2.countP
        (fun d => idMatches d (.str i)) = 1
    ∧ ∃ rec, (add_device (add_device devices dd1 now1).2 dd2 now2).2.find?
          (fun d => idMatches d (.str i)) = some rec
        ∧ dictGet rec "name" = some n2
        ∧ dictGet rec "updated_at" = some (.str now2) := by
  have hpy1 : pyGet dd1 "id" = JVal.str i := by rw [pyGet, h1id]; rfl
  have hpy2 : pyGet dd2 "id" = JVal.str i := by rw [pyGet, h2id]; rfl
  have hc1id : dictContains dd1 "id" = true := by rw [dictContains, h1id]; rfl
  have hc2id : dictContains dd2 "id" = true := by rw [dictContains, h2id]; rfl
  have hc2name : dictContains dd2 "name" = true := by rw [dictContains, h2name]; rfl
  have hval1 : (dictContains dd1 "id" && dictContains dd1 "name" && dictContains dd1 "type")
      = true := by rw [hc1id, h1name, h1type]; rfl
  have hval2 : (dictContains dd2 "id" && dictContains dd2 "name" && dictContains dd2 "type")
      = true := by rw [hc2id, hc2name, h2type]; rfl
  have hpres : ∀ (dd : JDict) (now' : String), (dd.map Prod.fst).Nodup →
      dictGet dd "id" = some (.str i) → ∀ d,
      idMatches (dictSet (dictUpdate d dd) "updated_at" (.str now')) (.str i) = true := by
    intro dd now' hnd hid d
    rw [idMatches, pyGet, dictGet_dictSet_ne _ _ _ _ (by decide),
      dictGet_dictUpdate_some d dd "id" _ hnd hid]
    exact pyEq_str_self i
  have hpres1 : ∀ d, idMatches d (.str i) = true →
      idMatches (dictSet (dictUpdate d dd1) "updated_at" (.str now1)) (.str i)
        = idMatches d (.str i) := fun d hd => by
    rw [hpres dd1 now1 h1nodup h1id d, hd]
  have hpres2 : ∀ d, idMatches d (.str i) = true →
      idMatches (dictSet (dictUpdate d dd2) "updated_at" (.str now2)) (.str i)
        = idMatches d (.str i) := fun d hd => by
    rw [hpres dd2 now2 h2nodup h2id d, hd]
  have hanyiff : ∀ (l : List JDict),
      (l.any (fun d => idMatches d (.str i)) = true)
        ↔ 0 < l.countP (fun d => idMatches d (.str i)) := by
    intro l
    rw [List.any_eq_true, List.countP_pos_iff]
  -- First add: in both branches the result registry has exactly one matching
  -- record and the call reports success.
  have hstep1 : (add_device devices dd1 now1).1 = true
      ∧ (add_device devices dd1 now1).2.countP (fun d => idMatches d (.str i)) = 1 := by
    by_cases hany1 : devices.any (fun d => idMatches d (.str i)) = true
    · rw [add_device_update_case devices dd1 now1 (.str i) hval1 hpy1 hany1]
      refine ⟨rfl, ?_⟩
      rw [countP_updateFirstById devices (.str i) dd1 now1 _ hpres1]
      have hpos := (hanyiff devices).1 hany1
      omega
    · have hany1f : devices.any (fun d => idMatches d (.str i)) = false := by
        revert hany1; cases devices.any (fun d => idMatches d (.str i)) <;> simp
      obtain ⟨heq, hrid, -, -⟩ :=
        add_device_append_case devices dd1 now1 (.str i) hval1 hpy1 hany1f
      rw [heq]
      refine ⟨rfl, ?_⟩
      have hz : devices.countP (fun d => idMatches d (.str i)) = 0 := by
        by_contra hnz
        have : 0 < devices.countP (fun d => idMatches d (.str i)) := by omega
        rw [← hanyiff devices] at this
        rw [this] at hany1f
        cases hany1f
      have hrmatch : idMatches
          (statusDefault (dictSet (dictSet dd1 "added_at" (.str now1)) "last_seen" .null))
          (.str i) = true := by
        rw [idMatches, pyGet, hrid, h1id]
        exact pyEq_str_self i
      rw [List.countP_append, hz, List.countP_cons, hrmatch]
      rfl
  -- Second add: the id now exists, so it is an update in place.
  have hany2 : (add_device devices dd1 now1).2.any (fun d => idMatches d (.str i)) = true := by
    rw [hanyiff, hstep1.2]
    omega
  have hstep2 := add_device_update_case (add_device devices dd1 now1).2 dd2 now2 (.str i)
    hval2 hpy2 hany2
  rw [hstep2]
  refine ⟨hstep1.1, rfl, ?_, ?_⟩
  · rw [countP_updateFirstById _ (.str i) dd2 now2 _ hpres2]
    exact hstep1.2
  · obtain ⟨d0, _, hfu⟩ := find?_updateFirstById (add_device devices dd1 now1).2 (.str i)
      dd2 now2 hany2 (fun d hd => hpres dd2 now2 h2nodup h2id d)
    refine ⟨_, hfu, ?_, ?_⟩
    · rw [dictGet_dictSet_ne _ _ _ _ (by decide),
        dictGet_dictUpdate_some d0 dd2 "name" n2 h2nodup h2name]
    · rw [dictGet_dictSet_self]

theorem add_device_idempotent_upsert_witness :
    dictGet [("id", JVal.str "plug1"), ("name", JVal.str "Old"), ("type", JVal.str "wifi")]
        "id" = some (.str "plug1")
    ∧ (add_device
        (add_device [] [("id", JVal.str "plug1"), ("name", JVal.str "Old"),
          ("type", JVal.str "wifi")] "T1").2
        [("id", JVal.str "plug1"), ("name", JVal.str "New"), ("type", JVal.str "wifi")]
        "T2").2.countP (fun d => idMatches d (.str "plug1")) = 1
    ∧ ∃ rec, (add_device
        (add_device [] [("id", JVal.str "plug1"), ("name", JVal.str "Old"),
          ("type", JVal.str "wifi")] "T1").2
        [("id", JVal.str "plug1"), ("name", JVal.str "New"), ("type", JVal.str "wifi")]
        "T2").2.find? (fun d => idMatches d (.str "plug1")) = some rec
      ∧ dictGet rec "name" = some (.str "New")
      ∧ dictGet rec "updated_at" = some (.str "T2") := by
  have h := add_device_idempotent_upsert []
    [("id", JVal.str "plug1"), ("name", JVal.str "Old"), ("type", JVal.str "wifi")]
    [("id", JVal.str "plug1"), ("name", JVal.str "New"), ("type", JVal.str "wifi")]
    "plug1" (.str "New") "T1" "T2" rfl rfl rfl rfl rfl rfl
    (by decide) (by decide) (by simp)
  exact ⟨rfl, h.2.2.1, h.2.2.2⟩

/-- C1 (counterexample): the end-to-end add of
`{id: "plug1", name: "Plug", type: "wifi", ip: "10.0.0.86"}` through the
`/add` route handler leaves the registry with exactly one record — but its
`status` is `"off"` (the handler sets `"status": "off"` explicitly, so the
registry-level `"unknown"` default never applies), and no record with status
`"unknown"` exists. -/
theorem api_add_plug1_not_unknown :
    ∃ devices2 rec,
      api_add_device [] ⟨"plug1", "Plug", "wifi", some "10.0.0.86", none⟩
          "2025-01-01T00:00:00" = .ok (devices2, rec)
      ∧ devices2.length = 1
      ∧ devices2.countP (fun d => pyEq (pyGet d "status") (.str "unknown")) = 0
      ∧ devices2.countP (fun d => pyEq (pyGet d "status") (.str "off")) = 1 := by
  refine ⟨_, _, rfl, rfl, rfl, rfl⟩

/-- C1 (amended): the registry-level `add` stores a new record with status
`"unknown"` only when the incoming record carries no status of its own; the
end-to-end add of `{id: "plug1", name: "Plug", type: "wifi",
ip: "10.0.0.86"}` goes through the route handler, which sets
`status: "off"` explicitly, so the registry ends up with exactly one record
for that id, carrying status `"off"`, and none with status `"unknown"`. -/
theorem add_device_status_defaults (devices : List JDict) (dd : JDict) (now : String)
    (hid : dictContains dd "id" = true)
    (hname : dictContains dd "name" = true)
    (htype : dictContains dd "type" = true)
    (hstatus : dictContains dd "status" = false)
    (hany : devices.any (fun d => idMatches d (pyGet dd "id")) = false) :
    (∃ rec, add_device devices dd now = (true, devices ++ [rec])
        ∧ dictGet rec "status" = some (.str "unknown"))
    ∧ (∃ devices2 rec,
        api_add_device [] ⟨"plug1", "Plug", "wifi", some "10.0.0.86", none⟩ now
          = .ok (devices2, rec)
        ∧ devices2.countP (fun d => idMatches d (.str "plug1")) = 1
        ∧ devices2.countP (fun d => pyEq (pyGet d "status") (.str "off")) = 1
        ∧ devices2.countP (fun d => pyEq (pyGet d "status") (.str "unknown")) = 0) := by
  constructor
  · have hval : (dictContains dd "id" && dictContains dd "name" && dictContains dd "type")
        = true := by rw [hid, hname, htype]; rfl
    obtain ⟨heq, -, -, hstat⟩ :=
      add_device_append_case devices dd now (pyGet dd "id") hval rfl hany
    exact ⟨_, heq, hstat hstatus⟩
  · refine ⟨_, _, rfl, rfl, rfl, rfl⟩

theorem add_device_status_defaults_witness :
    dictContains [("id", JVal.str "w1"), ("name", JVal.str "W"), ("type", JVal.str "wifi")]
        "status" = false
    ∧ ∃ rec, add_device []
        [("id", JVal.str "w1"), ("name", JVal.str "W"), ("type", JVal.str "wifi")] "T"
          = (true, [] ++ [rec])
        ∧ dictGet rec "status" = some (.str "unknown") :=
  ⟨rfl,
    (add_device_status_defaults []
      [("id", JVal.str "w1"), ("name", JVal.str "W"), ("type", JVal.str "wifi")] "T"
      rfl rfl rfl rfl rfl).1⟩

end MyHubLocal
